import Mathlib

/-!
Verification development for a web 3D model viewer (React + Three.js).

The development shallowly embeds the repository's core logic:

* the format resolver and size check of `loadModel` in `useModelFile`
  (hooks file), including its object-URL bookkeeping;
* the per-extension loader dispatch of the `Model` component in
  `ModelViewer.tsx`;
* the render-mode material adapter of `GLTFModel` / `OBJModel`;
* the camera auto-fit computation of `GLTFModel` / `OBJModel`;
* the annotation manager and the screen/world projection helpers in
  `utils/annotations.ts`.

JavaScript strings are embedded as `List Char` (`Str`) so that the
behaviour of `split`, `pop`, `toLowerCase` and `startsWith` can be
reasoned about structurally.  JavaScript numbers are embedded two ways:
as real numbers (`ℝ`) for the projection geometry, where no IEEE special
values arise on the domains considered, and as `JSNum` (a real number, a
signed infinity, or NaN) where the behaviour on special values is itself
the property under study (camera auto-fit, the unguarded division in
`screenToWorld`).
-/

/-- JavaScript strings, embedded as lists of characters. -/
abbrev Str := List Char

/-- Embedding of `String.prototype.toLowerCase` (ASCII range, which is all
the source ever feeds it). -/
def lowerStr (s : Str) : Str := s.map Char.toLower

/-- Embedding of `String.prototype.split(sep)` for a one-character
separator: `splitOnChar c s` never returns `[]`, matching the JS
behaviour that `"".split(c) = [""]`. -/
def splitOnChar (sep : Char) : Str → List Str
  | [] => [[]]
  | c :: cs =>
    if c = sep then
      [] :: splitOnChar sep cs
    else
      match splitOnChar sep cs with
      | [] => [[c]]
      | s :: rest => (c :: s) :: rest

/-- Embedding of `Array.prototype.pop()` on the non-empty result of a
split: the last element. -/
def lastPart (parts : List Str) : Str := parts.getLastD []

/-- Embedding of `String.prototype.startsWith`. -/
def startsWithStr (p s : Str) : Bool := decide (s.take p.length = p)

/-- The supported-suffix set of `loadModel`
(`const supportedFormats = ['glb', 'gltf', 'obj', 'fbx', 'stl']`). -/
def supportedFormats : List Str :=
  ["glb".data, "gltf".data, "obj".data, "fbx".data, "stl".data]

/-- Embedding of `file.type.split('/')[1]`.  The default is irrelevant:
the caller only reads it under a `startsWith('model/')` guard, which
forces the split to have a second element. -/
def mimeSubtype (mime : Str) : Str := (splitOnChar '/' mime).getD 1 []

/-- The candidate extension computed by `loadModel`:
`file.name.split('.').pop()?.toLowerCase()`, falling back to the MIME
subtype (with the `gltf+json` / `gltf-binary` special cases) exactly when
the popped segment is empty and the MIME type starts with `model/`. -/
def candidateExt (name mime : Str) : Str :=
  let ext0 := lowerStr (lastPart (splitOnChar '.' name))
  if ext0 = [] ∧ startsWithStr ("model/".data) mime then
    let sub := mimeSubtype mime
    if sub = "gltf+json".data then "gltf".data
    else if sub = "gltf-binary".data then "glb".data
    else sub
  else ext0

/-- The format check of `loadModel`: the candidate extension is accepted
iff it is non-empty and a member of `supportedFormats`. -/
def resolveExt (name mime : Str) : Option Str :=
  let ext := candidateExt name mime
  if ext = [] ∨ ¬ ext ∈ supportedFormats then none else some ext

/-- The 100 MB size limit of `loadModel` (`100 * 1024 * 1024`). -/
def sizeLimit : Nat := 100 * 1024 * 1024

/-- The error message set on a size-limit rejection. -/
def sizeLimitMsg : Str := "File size exceeds 100MB limit".data

/-- The error message set on an unsupported-format rejection
(template literal interpolating the candidate extension). -/
def unsupportedMsg (ext : Str) : Str := "Unsupported file format: .".data ++ ext

/-- The `sessionStorage` key under which `loadModel` records the resolved
extension of an object URL. -/
def fileTypeKey (url : Str) : Str := "fileType_".data ++ url

/-- Embedding of the `File` values handed to `loadModel`: name, byte
size, MIME type. -/
structure JSFile where
  name : Str
  size : Nat
  mimeType : Str
deriving DecidableEq

/-- The state held by the `useModelFile` hook, together with the two
process-wide side tables it drives: the `sessionStorage`
`fileType_<url>` mapping (`registry`) and the set of object URLs passed
to `URL.revokeObjectURL` so far (`revoked`). -/
structure LoadState where
  modelUrl : Option Str
  fileName : Option Str
  fileType : Option Str
  error : Option Str
  isLoading : Bool
  registry : List (Str × Str)
  revoked : List Str
deriving DecidableEq

/-- Embedding of `loadModel(file)`.  `freshUrl` stands for the object URL
that `URL.createObjectURL(file)` returns (creation is modelled as always
succeeding).  The source checks the size, then the format, and only then
revokes the previous blob URL, creates the new object URL, stores the
`sessionStorage` mapping and swaps the state. -/
def loadModel (freshUrl : Str) (st : LoadState) (f : JSFile) : LoadState :=
  if sizeLimit < f.size then
    { st with error := some sizeLimitMsg }
  else
    match resolveExt f.name f.mimeType with
    | none =>
        { st with error := some (unsupportedMsg (candidateExt f.name f.mimeType)) }
    | some ext =>
        let revoked' :=
          match st.modelUrl with
          | some u => if startsWithStr ("blob:".data) u then u :: st.revoked else st.revoked
          | none => st.revoked
        { modelUrl := some freshUrl
          fileName := some f.name
          fileType := some ext
          error := none
          isLoading := false
          registry := (fileTypeKey freshUrl, ext) :: st.registry
          revoked := revoked' }

/-- The render trees the `Model` component of `ModelViewer.tsx` can
return: a GLTF/GLB subtree, an OBJ subtree, the gray-box placeholder with
a caption, or the red `ErrorMessage` text. -/
inductive RenderOut where
  | gltfModel (url : Str)
  | objModel (url : Str)
  | placeholder (msg : Str)
  | errMsg (msg : Str)
deriving DecidableEq

/-- Embedding of the per-extension dispatch of the `Model` component
(the chain of `if (fileExtension === ...)` branches). -/
def modelDispatch (fileExtension url : Str) : RenderOut :=
  if fileExtension = "gltf".data ∨ fileExtension = "glb".data then
    RenderOut.gltfModel url
  else if fileExtension = "obj".data then
    RenderOut.objModel url
  else if fileExtension = "stl".data then
    RenderOut.placeholder ("STL format support coming soon".data)
  else if fileExtension = "fbx".data then
    RenderOut.placeholder ("FBX format support coming soon".data)
  else
    RenderOut.errMsg ("Unsupported file format: ".data ++
      (if fileExtension = [] then "unknown".data else fileExtension))

/-- What the `OBJModel` component ends up showing for a given current
`modelUrl`: nothing when no model is loaded, the parsed scene when the
`OBJLoader` succeeds on that URL, and the `ErrorMessage` element with
`'Failed to load OBJ model'` when it fails.  The asynchronous parse
outcome is modelled by the predicate `parseOk`. -/
def displayOBJ (modelUrl : Option Str) (parseOk : Str → Bool) : RenderOut :=
  match modelUrl with
  | none => RenderOut.errMsg []
  | some u =>
      if parseOk u then RenderOut.objModel u
      else RenderOut.errMsg ("Failed to load OBJ model".data)

/-- The kinds of Three.js material the viewer manipulates: materials
parsed from the model file, `MeshBasicMaterial` instances, and
`MeshStandardMaterial` instances. -/
inductive MatKind where
  | fromFile
  | basic
  | standard
deriving DecidableEq

/-- The per-surface appearance descriptor the adapter reads and writes:
the `mesh.material` slot, with the fields the source inspects or sets. -/
structure MeshMaterial where
  kind : MatKind
  name : Str
  color : Nat
  wireframe : Bool
  flatShading : Bool
deriving DecidableEq

/-- The material installed by wireframe mode:
`new THREE.MeshBasicMaterial({ wireframe: true, color: 0x00ff00 })`
(a fresh material has the empty name). -/
def wireframeMaterial : MeshMaterial :=
  { kind := MatKind.basic, name := [], color := 0x00ff00,
    wireframe := true, flatShading := false }

/-- The material installed by solid mode:
`new THREE.MeshStandardMaterial({ color: 0xcccccc, flatShading: true })`. -/
def solidMaterial : MeshMaterial :=
  { kind := MatKind.standard, name := [], color := 0xcccccc,
    wireframe := false, flatShading := true }

/-- The material `OBJModel` substitutes in textured mode for a surface
whose current material has the empty name:
`new THREE.MeshStandardMaterial({ color: 0xcccccc })`. -/
def defaultTexturedMaterial : MeshMaterial :=
  { kind := MatKind.standard, name := [], color := 0xcccccc,
    wireframe := false, flatShading := false }

/-- The per-mesh body of the render-mode effect in `GLTFModel`: wireframe
and solid overwrite `mesh.material` with a fresh material; for textured
mode the code leaves `mesh.material` as it currently is ("we keep the
original materials"). -/
def applyRenderModeGLTF (renderMode : Str) (m : MeshMaterial) : MeshMaterial :=
  if renderMode = "wireframe".data then wireframeMaterial
  else if renderMode = "solid".data then solidMaterial
  else m

/-- The per-mesh body of the render-mode effect in `OBJModel`: as in
`GLTFModel`, except that textured mode replaces a material whose `name`
is the empty string by a plain gray `MeshStandardMaterial` (the source
also tests for a missing material or an empty material array; a present,
single material is modelled, so only the name test remains). -/
def applyRenderModeOBJ (renderMode : Str) (m : MeshMaterial) : MeshMaterial :=
  if renderMode = "wireframe".data then wireframeMaterial
  else if renderMode = "solid".data then solidMaterial
  else if renderMode = "textured".data then
    (if m.name = [] then defaultTexturedMaterial else m)
  else m

/-- The `scene.traverse` of the `GLTFModel` render-mode effect, acting on
the (mutable) materials of the meshes of the scene. -/
def applySceneGLTF (renderMode : Str) (scene : List MeshMaterial) : List MeshMaterial :=
  scene.map (applyRenderModeGLTF renderMode)

/-- The `obj.traverse` of the `OBJModel` render-mode effect. -/
def applySceneOBJ (renderMode : Str) (scene : List MeshMaterial) : List MeshMaterial :=
  scene.map (applyRenderModeOBJ renderMode)

/-- The input record of `addAnnotation` (an `Annotation` without its
`id`).  Positions are embedded with rational coordinates. -/
structure AnnotData where
  position : ℚ × ℚ × ℚ
  title : Str
  description : Str
  color : Option Str
deriving DecidableEq

/-- The annotation records managed by `createAnnotationManager`. -/
structure Annot where
  id : Str
  position : ℚ × ℚ × ℚ
  title : Str
  description : Str
  color : Option Str
deriving DecidableEq

/-- The id generator of `addAnnotation`:
the template literal `annotation-${Date.now()}-${Math.floor(Math.random() * 1000)}`.
The two nondeterministic draws are passed in explicitly: `now` is the
millisecond timestamp, `rand` the floored scaled random value. -/
def makeAnnotId (now rand : Nat) : Str :=
  "annotation-".data ++ (Nat.repr now).data ++ "-".data ++ (Nat.repr rand).data

/-- Embedding of `addAnnotation`: build the record with a generated id,
push it at the end of the collection, and return it. -/
def addAnnot (now rand : Nat) (d : AnnotData) (anns : List Annot) :
    Annot × List Annot :=
  let a : Annot := { id := makeAnnotId now rand, position := d.position,
                     title := d.title, description := d.description,
                     color := d.color }
  (a, anns ++ [a])

/-- Embedding of `removeAnnotation`:
`annotations = annotations.filter(a => a.id !== id)`. -/
def removeAnnot (id : Str) (anns : List Annot) : List Annot :=
  anns.filter (fun a => decide (¬ a.id = id))

/-- Decimal value of a digit character (proof-side decoding helper, not a
translation of source code). -/
def digitVal (c : Char) : Nat := c.toNat - 48

/-- Decode a list of decimal digit characters back to a natural number
(proof-side helper used to invert `Nat.repr`). -/
def decDigits (l : List Char) : Nat :=
  l.foldl (fun acc c => 10 * acc + digitVal c) 0

/-- Decode a generated annotation id back to its `(now, rand)` pair
(proof-side helper used to show the id generator is injective). -/
def decodeAnnotId (l : Str) : Option (Nat × Nat) :=
  match splitOnChar '-' l with
  | [_, a, b] => some (decDigits a, decDigits b)
  | _ => none

/-- JavaScript numbers where IEEE special values matter: a finite value
(embedded as a real number, so no rounding or overflow is modelled), the
two signed infinities, or NaN.  Negative zero is identified with zero;
this matches the sign conventions at every division the development
reasons about. -/
inductive JSNum where
  | num : ℝ → JSNum
  | inf : JSNum
  | ninf : JSNum
  | nan : JSNum

/-- Whether a JavaScript number is finite (`Number.isFinite`). -/
def JSNum.isFinite : JSNum → Bool
  | JSNum.num _ => true
  | _ => false

noncomputable section

open Classical

/-- JavaScript unary minus. -/
noncomputable def jsNeg : JSNum → JSNum
  | JSNum.num a => JSNum.num (-a)
  | JSNum.inf => JSNum.ninf
  | JSNum.ninf => JSNum.inf
  | JSNum.nan => JSNum.nan

/-- JavaScript addition on `JSNum`. -/
noncomputable def jsAdd : JSNum → JSNum → JSNum
  | JSNum.num a, JSNum.num b => JSNum.num (a + b)
  | JSNum.num _, JSNum.inf => JSNum.inf
  | JSNum.num _, JSNum.ninf => JSNum.ninf
  | JSNum.inf, JSNum.num _ => JSNum.inf
  | JSNum.ninf, JSNum.num _ => JSNum.ninf
  | JSNum.inf, JSNum.inf => JSNum.inf
  | JSNum.ninf, JSNum.ninf => JSNum.ninf
  | JSNum.inf, JSNum.ninf => JSNum.nan
  | JSNum.ninf, JSNum.inf => JSNum.nan
  | _, _ => JSNum.nan

/-- JavaScript subtraction on `JSNum`. -/
noncomputable def jsSub (a b : JSNum) : JSNum := jsAdd a (jsNeg b)

/-- JavaScript multiplication on `JSNum` (`0 * ±Infinity = NaN`). -/
noncomputable def jsMul : JSNum → JSNum → JSNum
  | JSNum.num a, JSNum.num b => JSNum.num (a * b)
  | JSNum.num a, JSNum.inf =>
      if 0 < a then JSNum.inf else if a < 0 then JSNum.ninf else JSNum.nan
  | JSNum.num a, JSNum.ninf =>
      if 0 < a then JSNum.ninf else if a < 0 then JSNum.inf else JSNum.nan
  | JSNum.inf, JSNum.num b =>
      if 0 < b then JSNum.inf else if b < 0 then JSNum.ninf else JSNum.nan
  | JSNum.ninf, JSNum.num b =>
      if 0 < b then JSNum.ninf else if b < 0 then JSNum.inf else JSNum.nan
  | JSNum.inf, JSNum.inf => JSNum.inf
  | JSNum.inf, JSNum.ninf => JSNum.ninf
  | JSNum.ninf, JSNum.inf => JSNum.ninf
  | JSNum.ninf, JSNum.ninf => JSNum.inf
  | _, _ => JSNum.nan

/-- JavaScript division on `JSNum` (`x / 0` is a signed infinity for
`x ≠ 0` and NaN for `x = 0`; a finite value divided by an infinity is
zero; an infinity divided by an infinity is NaN). -/
noncomputable def jsDiv : JSNum → JSNum → JSNum
  | JSNum.num a, JSNum.num b =>
      if b = 0 then
        (if 0 < a then JSNum.inf else if a < 0 then JSNum.ninf else JSNum.nan)
      else JSNum.num (a / b)
  | JSNum.num _, JSNum.inf => JSNum.num 0
  | JSNum.num _, JSNum.ninf => JSNum.num 0
  | JSNum.inf, JSNum.num b => if b < 0 then JSNum.ninf else JSNum.inf
  | JSNum.ninf, JSNum.num b => if b < 0 then JSNum.inf else JSNum.ninf
  | _, _ => JSNum.nan

/-- JavaScript `Math.abs` on `JSNum`. -/
noncomputable def jsAbs : JSNum → JSNum
  | JSNum.num a => JSNum.num |a|
  | JSNum.inf => JSNum.inf
  | JSNum.ninf => JSNum.inf
  | JSNum.nan => JSNum.nan

/-- JavaScript `Math.max` of two arguments on `JSNum` (NaN-propagating). -/
noncomputable def jsMax : JSNum → JSNum → JSNum
  | JSNum.nan, _ => JSNum.nan
  | _, JSNum.nan => JSNum.nan
  | JSNum.inf, _ => JSNum.inf
  | _, JSNum.inf => JSNum.inf
  | JSNum.ninf, b => b
  | a, JSNum.ninf => a
  | JSNum.num a, JSNum.num b => JSNum.num (max a b)

/-- JavaScript `Math.sin` on `JSNum` (NaN on non-finite input). -/
noncomputable def jsSin : JSNum → JSNum
  | JSNum.num a => JSNum.num (Real.sin a)
  | _ => JSNum.nan

/-- JavaScript `Math.sqrt` on `JSNum` (NaN on negative input). -/
noncomputable def jsSqrt : JSNum → JSNum
  | JSNum.num a => if a < 0 then JSNum.nan else JSNum.num (Real.sqrt a)
  | JSNum.inf => JSNum.inf
  | _ => JSNum.nan

/-- The camera auto-fit computation of `GLTFModel` / `OBJModel`, on the
components of the bounding-box size and the camera field of view in
degrees:
`maxDim = Math.max(size.x, size.y, size.z)` (the ternary `Math.max` is
modelled by nesting the binary one, which agrees with it),
`fov = camera.fov * (Math.PI / 180)`,
`cameraZ = Math.abs(maxDim / Math.sin(fov / 2))`,
and the camera is placed at `cameraZ * 1.5`. -/
noncomputable def cameraFitZ (sx sy sz fov : JSNum) : JSNum :=
  let maxDim := jsMax sx (jsMax sy sz)
  let fovRad := jsMul fov (JSNum.num (Real.pi / 180))
  let cameraZ := jsAbs (jsDiv maxDim (jsSin (jsDiv fovRad (JSNum.num 2))))
  jsMul cameraZ (JSNum.num 1.5)

/-- Vectors of JavaScript numbers (`THREE.Vector3` where special values
matter). -/
structure JSVec3 where
  x : JSNum
  y : JSNum
  z : JSNum

/-- Componentwise vector subtraction (`Vector3.sub`). -/
noncomputable def jsVecSub (a b : JSVec3) : JSVec3 :=
  { x := jsSub a.x b.x, y := jsSub a.y b.y, z := jsSub a.z b.z }

/-- Componentwise vector addition (`Vector3.add`). -/
noncomputable def jsVecAdd (a b : JSVec3) : JSVec3 :=
  { x := jsAdd a.x b.x, y := jsAdd a.y b.y, z := jsAdd a.z b.z }

/-- Scalar multiplication (`Vector3.multiplyScalar`). -/
noncomputable def jsVecScale (s : JSNum) (v : JSVec3) : JSVec3 :=
  { x := jsMul v.x s, y := jsMul v.y s, z := jsMul v.z s }

/-- Embedding of `Vector3.normalize`: divide by the Euclidean length,
which Three.js implements as multiplication by `1 / length`. -/
noncomputable def jsNormalize (v : JSVec3) : JSVec3 :=
  let l := jsSqrt (jsAdd (jsAdd (jsMul v.x v.x) (jsMul v.y v.y)) (jsMul v.z v.z))
  let invL := jsDiv (JSNum.num 1) l
  jsVecScale invL v

/-- A 4 by 4 matrix of JavaScript numbers (`THREE.Matrix4`), row-major:
`m03` is the entry of row 0, column 3. -/
structure JSMat4 where
  m00 : JSNum
  m01 : JSNum
  m02 : JSNum
  m03 : JSNum
  m10 : JSNum
  m11 : JSNum
  m12 : JSNum
  m13 : JSNum
  m20 : JSNum
  m21 : JSNum
  m22 : JSNum
  m23 : JSNum
  m30 : JSNum
  m31 : JSNum
  m32 : JSNum
  m33 : JSNum

/-- Embedding of `Vector3.applyMatrix4`: Three.js computes
`w = 1 / (m30 x + m31 y + m32 z + m33)` and multiplies the three
transformed components by `w`. -/
noncomputable def jsApplyMatrix4 (e : JSMat4) (v : JSVec3) : JSVec3 :=
  let w := jsDiv (JSNum.num 1)
    (jsAdd (jsAdd (jsAdd (jsMul e.m30 v.x) (jsMul e.m31 v.y)) (jsMul e.m32 v.z)) e.m33)
  { x := jsMul (jsAdd (jsAdd (jsAdd (jsMul e.m00 v.x) (jsMul e.m01 v.y)) (jsMul e.m02 v.z)) e.m03) w
    y := jsMul (jsAdd (jsAdd (jsAdd (jsMul e.m10 v.x) (jsMul e.m11 v.y)) (jsMul e.m12 v.z)) e.m13) w
    z := jsMul (jsAdd (jsAdd (jsAdd (jsMul e.m20 v.x) (jsMul e.m21 v.y)) (jsMul e.m22 v.z)) e.m23) w }

/-- The normalized-device-coordinate vector built at the top of
`screenToWorld`:
`((screenX / width) * 2 - 1, -(screenY / height) * 2 + 1, depth)`. -/
noncomputable def stwNdc (screenX screenY w h depth : JSNum) : JSVec3 :=
  { x := jsSub (jsMul (jsDiv screenX w) (JSNum.num 2)) (JSNum.num 1)
    y := jsAdd (jsMul (jsNeg (jsDiv screenY h)) (JSNum.num 2)) (JSNum.num 1)
    z := depth }

/-- The camera-to-point direction computed by `screenToWorld`:
`vector.unproject(camera)` (inverse projection matrix, then world
matrix), followed by `vector.sub(camera.position).normalize()`.  The two
camera matrices are passed in explicitly. -/
noncomputable def stwDir (screenX screenY : JSNum) (camPos : JSVec3)
    (projInv world : JSMat4) (w h depth : JSNum) : JSVec3 :=
  jsNormalize (jsVecSub
    (jsApplyMatrix4 world (jsApplyMatrix4 projInv (stwNdc screenX screenY w h depth)))
    camPos)

/-- Embedding of `screenToWorld` on JavaScript-number semantics
(`utils/annotations.ts`): after computing the direction, the code divides
by its z-component with no guard,
`distance = (depth - camera.position.z) / dir.z`, and returns
`camera.position.clone().add(dir.multiplyScalar(distance))`. -/
noncomputable def screenToWorldNum (screenX screenY : JSNum) (camPos : JSVec3)
    (projInv world : JSMat4) (w h depth : JSNum) : JSVec3 :=
  let dir := stwDir screenX screenY camPos projInv world w h depth
  let dist := jsDiv (jsSub depth camPos.z) dir.z
  jsVecAdd camPos (jsVecScale dist dir)

end

/-- Real-number 3D vectors (`THREE.Vector3` on the domains where no IEEE
special value arises). -/
structure Vec3 where
  x : ℝ
  y : ℝ
  z : ℝ

/-- A 4 by 4 real matrix (`THREE.Matrix4`), row-major. -/
structure Mat4 where
  m00 : ℝ
  m01 : ℝ
  m02 : ℝ
  m03 : ℝ
  m10 : ℝ
  m11 : ℝ
  m12 : ℝ
  m13 : ℝ
  m20 : ℝ
  m21 : ℝ
  m22 : ℝ
  m23 : ℝ
  m30 : ℝ
  m31 : ℝ
  m32 : ℝ
  m33 : ℝ

noncomputable section

/-- Embedding of `Vector3.applyMatrix4` over the reals: apply the
homogeneous transform and divide by the resulting w-component. -/
noncomputable def applyMat4 (e : Mat4) (v : Vec3) : Vec3 :=
  let w := e.m30 * v.x + e.m31 * v.y + e.m32 * v.z + e.m33
  { x := (e.m00 * v.x + e.m01 * v.y + e.m02 * v.z + e.m03) / w
    y := (e.m10 * v.x + e.m11 * v.y + e.m12 * v.z + e.m13) / w
    z := (e.m20 * v.x + e.m21 * v.y + e.m22 * v.z + e.m23) / w }

/-- Vector subtraction (`Vector3.sub`). -/
noncomputable def vsub (a b : Vec3) : Vec3 :=
  { x := a.x - b.x, y := a.y - b.y, z := a.z - b.z }

/-- Vector addition (`Vector3.add`). -/
noncomputable def vadd (a b : Vec3) : Vec3 :=
  { x := a.x + b.x, y := a.y + b.y, z := a.z + b.z }

/-- Scalar multiplication (`Vector3.multiplyScalar`). -/
noncomputable def vscale (s : ℝ) (v : Vec3) : Vec3 :=
  { x := v.x * s, y := v.y * s, z := v.z * s }

/-- Euclidean length (`Vector3.length`). -/
noncomputable def vlength (v : Vec3) : ℝ :=
  Real.sqrt (v.x ^ 2 + v.y ^ 2 + v.z ^ 2)

/-- Embedding of `Vector3.normalize` (divide by the length). -/
noncomputable def vnormalize (v : Vec3) : Vec3 :=
  { x := v.x / vlength v, y := v.y / vlength v, z := v.z / vlength v }

/-- The perspective camera of the viewer, with its default orientation
(looking down the negative z-axis; the `Canvas` creates it at position
`[0, 0, 5]` with `fov={50}`): position, vertical field of view in
degrees, aspect ratio, and the near and far plane distances. -/
structure PerspCamera where
  position : Vec3
  fov : ℝ
  aspect : ℝ
  near : ℝ
  far : ℝ

/-- `THREE.MathUtils.DEG2RAD`. -/
noncomputable def deg2rad : ℝ := Real.pi / 180

/-- The `top` value of `PerspectiveCamera.updateProjectionMatrix`:
`near * tan(DEG2RAD * 0.5 * fov)` (zoom 1, no view offset). -/
noncomputable def projTop (c : PerspCamera) : ℝ :=
  c.near * Real.tan (deg2rad * 0.5 * c.fov)

/-- The projection matrix built by
`PerspectiveCamera.updateProjectionMatrix` via `makePerspective`
with `height = 2 * top`, `width = aspect * height`, and a symmetric
frustum (`left = -width / 2`). -/
noncomputable def projectionMat (c : PerspCamera) : Mat4 :=
  let top := projTop c
  { m00 := 2 * c.near / (c.aspect * (2 * top))
    m01 := 0, m02 := 0, m03 := 0
    m10 := 0
    m11 := 2 * c.near / (2 * top)
    m12 := 0, m13 := 0
    m20 := 0, m21 := 0
    m22 := -(c.far + c.near) / (c.far - c.near)
    m23 := -2 * c.far * c.near / (c.far - c.near)
    m30 := 0, m31 := 0, m32 := -1, m33 := 0 }

/-- The inverse of the projection matrix
(`camera.projectionMatrixInverse`, which Three.js maintains as the matrix
inverse of `projectionMatrix`; written in closed form here and certified
against `projectionMat` below). -/
noncomputable def projectionMatInv (c : PerspCamera) : Mat4 :=
  let top := projTop c
  { m00 := c.aspect * (2 * top) / (2 * c.near)
    m01 := 0, m02 := 0, m03 := 0
    m10 := 0
    m11 := 2 * top / (2 * c.near)
    m12 := 0, m13 := 0
    m20 := 0, m21 := 0, m22 := 0, m23 := -1
    m30 := 0, m31 := 0
    m32 := -(c.far - c.near) / (2 * c.far * c.near)
    m33 := (c.far + c.near) / (2 * c.far * c.near) }

/-- The world matrix of a camera with default orientation: a pure
translation by the camera position. -/
noncomputable def translationMat (p : Vec3) : Mat4 :=
  { m00 := 1, m01 := 0, m02 := 0, m03 := p.x
    m10 := 0, m11 := 1, m12 := 0, m13 := p.y
    m20 := 0, m21 := 0, m22 := 1, m23 := p.z
    m30 := 0, m31 := 0, m32 := 0, m33 := 1 }

/-- Embedding of `Vector3.unproject(camera)`: apply
`projectionMatrixInverse`, then `matrixWorld`. -/
noncomputable def unprojectV (v : Vec3) (c : PerspCamera) : Vec3 :=
  applyMat4 (translationMat c.position) (applyMat4 (projectionMatInv c) v)

/-- Embedding of `Vector3.project(camera)`: apply `matrixWorldInverse`
(the translation by the negated position), then `projectionMatrix`. -/
noncomputable def projectV (p : Vec3) (c : PerspCamera) : Vec3 :=
  applyMat4 (projectionMat c)
    (applyMat4 (translationMat { x := -c.position.x, y := -c.position.y, z := -c.position.z }) p)

/-- Embedding of `screenToWorld` from `utils/annotations.ts` over the
reals: normalize the screen coordinates to device coordinates
(Y inverted), unproject at the given depth, extend the camera-to-point
ray to the plane `z = depth`, and return the resulting position. -/
noncomputable def screenToWorld (screenX screenY : ℝ) (c : PerspCamera)
    (w h depth : ℝ) : Vec3 :=
  let v : Vec3 := { x := (screenX / w) * 2 - 1, y := -(screenY / h) * 2 + 1, z := depth }
  let vu := unprojectV v c
  let dir := vnormalize (vsub vu c.position)
  let dist := (depth - c.position.z) / dir.z
  vadd c.position (vscale dist dir)

/-- Embedding of `worldToScreen` from `utils/annotations.ts`: project
through the camera, then map device coordinates back to pixel
coordinates with `Math.round` (Y inverted). -/
noncomputable def worldToScreen (p : Vec3) (c : PerspCamera) (w h : ℝ) : ℤ × ℤ :=
  let v := projectV p c
  (round ((v.x + 1) * w / 2), round ((-v.y + 1) * h / 2))

end

/-- Matrix product of two `Mat4` (row times column). -/
noncomputable def mat4Mul (a b : Mat4) : Mat4 :=
  { m00 := a.m00 * b.m00 + a.m01 * b.m10 + a.m02 * b.m20 + a.m03 * b.m30
    m01 := a.m00 * b.m01 + a.m01 * b.m11 + a.m02 * b.m21 + a.m03 * b.m31
    m02 := a.m00 * b.m02 + a.m01 * b.m12 + a.m02 * b.m22 + a.m03 * b.m32
    m03 := a.m00 * b.m03 + a.m01 * b.m13 + a.m02 * b.m23 + a.m03 * b.m33
    m10 := a.m10 * b.m00 + a.m11 * b.m10 + a.m12 * b.m20 + a.m13 * b.m30
    m11 := a.m10 * b.m01 + a.m11 * b.m11 + a.m12 * b.m21 + a.m13 * b.m31
    m12 := a.m10 * b.m02 + a.m11 * b.m12 + a.m12 * b.m22 + a.m13 * b.m32
    m13 := a.m10 * b.m03 + a.m11 * b.m13 + a.m12 * b.m23 + a.m13 * b.m33
    m20 := a.m20 * b.m00 + a.m21 * b.m10 + a.m22 * b.m20 + a.m23 * b.m30
    m21 := a.m20 * b.m01 + a.m21 * b.m11 + a.m22 * b.m21 + a.m23 * b.m31
    m22 := a.m20 * b.m02 + a.m21 * b.m12 + a.m22 * b.m22 + a.m23 * b.m32
    m23 := a.m20 * b.m03 + a.m21 * b.m13 + a.m22 * b.m23 + a.m23 * b.m33
    m30 := a.m30 * b.m00 + a.m31 * b.m10 + a.m32 * b.m20 + a.m33 * b.m30
    m31 := a.m30 * b.m01 + a.m31 * b.m11 + a.m32 * b.m21 + a.m33 * b.m31
    m32 := a.m30 * b.m02 + a.m31 * b.m12 + a.m32 * b.m22 + a.m33 * b.m32
    m33 := a.m30 * b.m03 + a.m31 * b.m13 + a.m32 * b.m23 + a.m33 * b.m33 }

/-- The identity `Mat4`. -/
noncomputable def idMat4 : Mat4 :=
  { m00 := 1, m01 := 0, m02 := 0, m03 := 0
    m10 := 0, m11 := 1, m12 := 0, m13 := 0
    m20 := 0, m21 := 0, m22 := 1, m23 := 0
    m30 := 0, m31 := 0, m32 := 0, m33 := 1 }

/-- The identity matrix as a `JSMat4` (concrete input used to exercise
the `screenToWorldNum` theorems). -/
noncomputable def idJSMat4 : JSMat4 :=
  { m00 := JSNum.num 1, m01 := JSNum.num 0, m02 := JSNum.num 0, m03 := JSNum.num 0
    m10 := JSNum.num 0, m11 := JSNum.num 1, m12 := JSNum.num 0, m13 := JSNum.num 0
    m20 := JSNum.num 0, m21 := JSNum.num 0, m22 := JSNum.num 1, m23 := JSNum.num 0
    m30 := JSNum.num 0, m31 := JSNum.num 0, m32 := JSNum.num 0, m33 := JSNum.num 1 }

/-- A concrete perspective camera used to exercise the projection
theorems: positioned at `(0, 0, 5)` like the viewer's camera, with a
90-degree field of view so that `tan(fov / 2) = 1`. -/
noncomputable def witCamera : PerspCamera :=
  { position := { x := 0, y := 0, z := 5 }, fov := 90, aspect := 1, near := 1, far := 3 }

/-!
Lemmas and theorems.  Each claim theorem is marked with its claim id.
-/

theorem splitOnChar_ne_nil (sep : Char) (l : Str) : splitOnChar sep l ≠ [] := by
  cases l with
  | nil => simp [splitOnChar]
  | cons c cs =>
    rw [splitOnChar]
    by_cases h : c = sep
    · simp [h]
    · simp only [h, if_false]
      rcases hs : splitOnChar sep cs with _ | ⟨s, rest⟩
      · simp
      · simp

theorem splitOnChar_no_sep (sep : Char) (l : Str) (h : sep ∉ l) :
    splitOnChar sep l = [l] := by
  induction l with
  | nil => simp [splitOnChar]
  | cons c cs ih =>
    rw [splitOnChar]
    have hc : ¬ c = sep := fun hc => h (hc ▸ List.mem_cons_self c cs)
    have hcs : sep ∉ cs := fun hm => h (List.mem_cons_of_mem c hm)
    simp only [hc, if_false, ih hcs]

theorem splitOnChar_append_sep (sep : Char) (a b : Str) :
    splitOnChar sep (a ++ sep :: b) = splitOnChar sep a ++ splitOnChar sep b := by
  induction a with
  | nil => simp [splitOnChar]
  | cons c cs ih =>
    by_cases h : c = sep
    · subst h
      show splitOnChar c (c :: (cs ++ c :: b)) = splitOnChar c (c :: cs) ++ splitOnChar c b
      rw [splitOnChar, splitOnChar, if_pos rfl, if_pos rfl, ih]
      rfl
    · show splitOnChar sep (c :: (cs ++ sep :: b)) =
        splitOnChar sep (c :: cs) ++ splitOnChar sep b
      rw [splitOnChar, splitOnChar, if_neg h, if_neg h, ih]
      rcases hs : splitOnChar sep cs with _ | ⟨s, rest⟩
      · exact absurd hs (splitOnChar_ne_nil sep cs)
      · simp

theorem lastPart_append (l1 l2 : List Str) (h : l2 ≠ []) :
    lastPart (l1 ++ l2) = lastPart l2 := by
  unfold lastPart
  rw [List.getLastD_eq_getLast?, List.getLastD_eq_getLast?,
    List.getLast?_append_of_ne_nil l1 h]

theorem lowerStr_eq_nil_iff (s : Str) : lowerStr s = [] ↔ s = [] := by
  simp [lowerStr]

theorem candidateExt_dotted (base ext mime : Str) (hne : ext ≠ [])
    (hdot : '.' ∉ ext) :
    candidateExt (base ++ '.' :: ext) mime = lowerStr ext := by
  have hsplit : splitOnChar '.' (base ++ '.' :: ext) =
      splitOnChar '.' base ++ [ext] := by
    rw [splitOnChar_append_sep, splitOnChar_no_sep '.' ext hdot]
  have hlast : lastPart (splitOnChar '.' (base ++ '.' :: ext)) = ext := by
    rw [hsplit, lastPart_append _ _ (by simp)]
    rfl
  unfold candidateExt
  rw [hlast]
  have : ¬ (lowerStr ext = [] ∧ startsWithStr ("model/".data) mime = true) := by
    rintro ⟨h1, -⟩
    exact hne ((lowerStr_eq_nil_iff ext).mp h1)
  simp only [this, if_false]

theorem candidateExt_mime_free (name m1 m2 : Str)
    (h : lowerStr (lastPart (splitOnChar '.' name)) ≠ []) :
    candidateExt name m1 = candidateExt name m2 := by
  unfold candidateExt
  simp only [h, false_and, if_false]

/-- C1.  The claim says switching render mode to `wireframe` and then
back to `textured` restores each surface's originally parsed material.
The code does not: applying wireframe mode overwrites `mesh.material`
with a fresh wireframe material and nothing saves the original, and
textured mode merely keeps whatever material is currently installed
(`GLTFModel`) or swaps an unnamed material for a plain gray one
(`OBJModel`).  Evaluated on a one-surface scene whose parsed material is
named `Wood`: after wireframe-then-textured the GLTF surface still
carries the wireframe material, and the OBJ surface carries the gray
default — neither equals the original. -/
theorem c1_wireframe_textured_not_restored :
    applySceneGLTF ("textured".data) (applySceneGLTF ("wireframe".data)
        [{ kind := MatKind.fromFile, name := "Wood".data, color := 0x123456,
           wireframe := false, flatShading := false }]) = [wireframeMaterial] ∧
    applySceneOBJ ("textured".data) (applySceneOBJ ("wireframe".data)
        [{ kind := MatKind.fromFile, name := "Wood".data, color := 0x123456,
           wireframe := false, flatShading := false }]) = [defaultTexturedMaterial] ∧
    wireframeMaterial ≠
      { kind := MatKind.fromFile, name := "Wood".data, color := 0x123456,
        wireframe := false, flatShading := false } ∧
    defaultTexturedMaterial ≠
      { kind := MatKind.fromFile, name := "Wood".data, color := 0x123456,
        wireframe := false, flatShading := false } ∧
    wireframeMaterial.wireframe = true := by
  refine ⟨by decide, by decide, by decide, by decide, rfl⟩

/-- C6.  Dispatching a handle resolved to `stl` or `fbx` yields the
deterministic placeholder result whose caption names the attempted
format (the two captions differ), not a parse failure; an extension
outside the recognized set yields the hard unsupported-format error
message, which is never a placeholder. -/
theorem c6_dispatch :
    (∀ url, modelDispatch ("stl".data) url =
      RenderOut.placeholder ("STL format support coming soon".data)) ∧
    (∀ url, modelDispatch ("fbx".data) url =
      RenderOut.placeholder ("FBX format support coming soon".data)) ∧
    ("STL format support coming soon".data ≠ ("FBX format support coming soon".data : Str)) ∧
    (∀ ext url, ¬ ext ∈ supportedFormats →
      modelDispatch ext url = RenderOut.errMsg ("Unsupported file format: ".data ++
        (if ext = [] then "unknown".data else ext)) ∧
      ∀ m, modelDispatch ext url ≠ RenderOut.placeholder m) := by
  refine ⟨fun url => rfl, fun url => rfl, by decide, ?_⟩
  intro ext url hext
  have h1 : ¬ ext = "gltf".data := fun h => hext (by rw [h]; decide)
  have h2 : ¬ ext = "glb".data := fun h => hext (by rw [h]; decide)
  have h3 : ¬ ext = "obj".data := fun h => hext (by rw [h]; decide)
  have h4 : ¬ ext = "stl".data := fun h => hext (by rw [h]; decide)
  have h5 : ¬ ext = "fbx".data := fun h => hext (by rw [h]; decide)
  unfold modelDispatch
  rw [if_neg (not_or.mpr ⟨h1, h2⟩), if_neg h3, if_neg h4, if_neg h5]
  exact ⟨rfl, fun m h => by injection h⟩

/-- Witness for C6 at the concrete unrecognized extension `xyz`. -/
theorem c6_dispatch_witness :
    modelDispatch ("xyz".data) ("blob:u".data) =
      RenderOut.errMsg ("Unsupported file format: ".data ++ "xyz".data) ∧
    ∀ m, modelDispatch ("xyz".data) ("blob:u".data) ≠ RenderOut.placeholder m := by
  have h := (c6_dispatch.2.2.2) ("xyz".data) ("blob:u".data) (by decide)
  refine ⟨?_, h.2⟩
  have h1 := h.1
  simpa using h1

/-- C4.  The format resolver follows the priority chain with first match
winning: any name carrying a dotted suffix that lower-cases into the
supported set resolves to that suffix whatever the MIME hint says (and
the hook consults no URL at all); a name whose popped segment is
non-empty never consults the MIME hint; and with an empty name the MIME
subtypes `gltf+json` and `gltf-binary` map to `gltf` and `glb`. -/
theorem c4_resolver :
    (∀ base ext mime, ext ≠ [] → '.' ∉ ext → lowerStr ext ∈ supportedFormats →
      resolveExt (base ++ '.' :: ext) mime = some (lowerStr ext)) ∧
    (∀ name m1 m2, lowerStr (lastPart (splitOnChar '.' name)) ≠ [] →
      resolveExt name m1 = resolveExt name m2) ∧
    resolveExt [] ("model/gltf+json".data) = some ("gltf".data) ∧
    resolveExt [] ("model/gltf-binary".data) = some ("glb".data) := by
  refine ⟨?_, ?_, by decide, by decide⟩
  · intro base ext mime hne hdot hsup
    unfold resolveExt
    rw [candidateExt_dotted base ext mime hne hdot]
    have h1 : ¬ (lowerStr ext = [] ∨ ¬ lowerStr ext ∈ supportedFormats) := by
      push_neg
      exact ⟨fun hh => hne ((lowerStr_eq_nil_iff ext).mp hh), hsup⟩
    rw [if_neg h1]
  · intro name m1 m2 h
    unfold resolveExt
    rw [candidateExt_mime_free name m1 m2 h]

/-- Witness for C4: the name `scene.GLB` with a contradictory MIME hint
resolves to `glb`. -/
theorem c4_resolver_witness :
    resolveExt ("scene.GLB".data) ("text/plain".data) = some ("glb".data) := by
  have h := c4_resolver.1 ("scene".data) ("GLB".data) ("text/plain".data)
    (by decide) (by decide) (by decide)
  have he : ("scene".data : Str) ++ '.' :: "GLB".data = "scene.GLB".data := by decide
  have hl : lowerStr ("GLB".data) = "glb".data := by decide
  rw [he, hl] at h
  exact h

/-- C9 counterexample.  The claim says the MIME fallback is consulted
only when the file name is the empty string.  A file named `model.`
(non-empty, ending in a dot) pops an empty candidate suffix, so the
fallback is consulted and decides the outcome: with MIME
`model/gltf-binary` the file is accepted as `glb`, with a non-model MIME
it is rejected. -/
theorem c9_counterexample :
    resolveExt ("model.".data) ("model/gltf-binary".data) = some ("glb".data) ∧
    resolveExt ("model.".data) ("text/plain".data) = none ∧
    ("model.".data : Str) ≠ [] := by
  exact ⟨by decide, by decide, by decide⟩

/-- C9 as amended.  The MIME fallback is consulted only when the popped
candidate suffix is empty (the name is empty or ends in a dot); for a
name with no dot the popped segment is the whole name, so a file named
`model` of MIME type `model/gltf-binary` is rejected while a file named
`obj` is accepted as OBJ under any MIME hint. -/
theorem c9_amended :
    (∀ name m1 m2, lastPart (splitOnChar '.' name) ≠ [] →
      resolveExt name m1 = resolveExt name m2) ∧
    (∀ name, '.' ∉ name → lastPart (splitOnChar '.' name) = name) ∧
    resolveExt ("model".data) ("model/gltf-binary".data) = none ∧
    (∀ mime, resolveExt ("obj".data) mime = some ("obj".data)) := by
  refine ⟨?_, ?_, by decide, ?_⟩
  · intro name m1 m2 h
    unfold resolveExt
    rw [candidateExt_mime_free name m1 m2 (by simpa [lowerStr_eq_nil_iff] using h)]
  · intro name h
    rw [splitOnChar_no_sep '.' name h]
    simp [lastPart]
  · intro mime
    unfold resolveExt
    rw [candidateExt_mime_free ("obj".data) mime [] (by decide)]
    decide

/-- Witness for C9: the amended independence and whole-name-suffix parts
applied at concrete inputs. -/
theorem c9_amended_witness :
    resolveExt ("a.glb".data) ("model/stl".data) = resolveExt ("a.glb".data) [] ∧
    lastPart (splitOnChar '.' ("model".data)) = "model".data ∧
    resolveExt ("obj".data) ("image/png".data) = some ("obj".data) := by
  exact ⟨c9_amended.1 ("a.glb".data) ("model/stl".data) [] (by decide),
    c9_amended.2.1 ("model".data) (by decide),
    c9_amended.2.2.2 ("image/png".data)⟩

theorem unsupportedMsg_ne_sizeLimitMsg (c : Str) : unsupportedMsg c ≠ sizeLimitMsg := by
  intro h
  have h1 : unsupportedMsg c = 'U' :: ("nsupported file format: .".data ++ c) := rfl
  have h2 : sizeLimitMsg = 'F' :: "ile size exceeds 100MB limit".data := rfl
  rw [h1, h2] at h
  injection h with hc _
  exact absurd hc (by decide)

/-- C5.  A file strictly larger than 100 MB is rejected with the
size-limit failure while the whole state — the previous URL, the
registry, the revocation log — is left untouched (so no object URL was
created, nothing was fetched and nothing parsed); a file of exactly
100 MB passes the size check and can only be rejected, if at all, for
its format. -/
theorem c5_size_limit :
    (∀ st f fresh, sizeLimit < f.size →
      loadModel fresh st f = { st with error := some sizeLimitMsg }) ∧
    (∀ st f fresh, f.size = sizeLimit →
      (loadModel fresh st f).error ≠ some sizeLimitMsg) := by
  constructor
  · intro st f fresh h
    unfold loadModel
    rw [if_pos h]
  · intro st f fresh h
    unfold loadModel
    rw [if_neg (Nat.not_lt.mpr (Nat.le_of_eq h))]
    rcases hr : resolveExt f.name f.mimeType with _ | ext
    · show some (unsupportedMsg _) ≠ some sizeLimitMsg
      intro hc
      injection hc with hc
      exact unsupportedMsg_ne_sizeLimitMsg _ hc
    · show none ≠ some sizeLimitMsg
      exact fun hc => by injection hc

/-- Witness for C5: a file of 100 MB plus one byte is rejected with the
size message and the state is otherwise untouched; a file of exactly
100 MB is not size-rejected. -/
theorem c5_size_limit_witness :
    loadModel ("blob:new".data)
      { modelUrl := none, fileName := none, fileType := none, error := none,
        isLoading := false, registry := [], revoked := [] }
      { name := "big.glb".data, size := 100 * 1024 * 1024 + 1, mimeType := [] } =
      { modelUrl := none, fileName := none, fileType := none,
        error := some sizeLimitMsg, isLoading := false, registry := [], revoked := [] } ∧
    (loadModel ("blob:new".data)
      { modelUrl := none, fileName := none, fileType := none, error := none,
        isLoading := false, registry := [], revoked := [] }
      { name := "big.glb".data, size := 100 * 1024 * 1024, mimeType := [] }).error ≠
      some sizeLimitMsg := by
  constructor
  · exact c5_size_limit.1 _ _ _ (by decide)
  · exact c5_size_limit.2 _ _ _ (by decide)

/-- C3 counterexample.  With a model displayed from `blob:old`, loading a
replacement file that passes validation but whose content will fail to
parse (the `OBJLoader` error path) destroys the previous model: the old
blob URL is revoked by `loadModel` before any parse can run, the current
URL becomes the new one, and the viewer shows the OBJ error message
instead of the previous scene. -/
theorem c3_counterexample :
    (displayOBJ (some ("blob:old".data)) (fun u => decide (u = "blob:old".data)) =
      RenderOut.objModel ("blob:old".data)) ∧
    (displayOBJ (loadModel ("blob:new".data)
        { modelUrl := some ("blob:old".data), fileName := some ("good.obj".data),
          fileType := some ("obj".data), error := none, isLoading := false,
          registry := [(fileTypeKey ("blob:old".data), "obj".data)], revoked := [] }
        { name := "broken.obj".data, size := 10, mimeType := [] }).modelUrl
        (fun u => decide (u = "blob:old".data)) =
      RenderOut.errMsg ("Failed to load OBJ model".data)) ∧
    ("blob:old".data : Str) ∈ (loadModel ("blob:new".data)
        { modelUrl := some ("blob:old".data), fileName := some ("good.obj".data),
          fileType := some ("obj".data), error := none, isLoading := false,
          registry := [(fileTypeKey ("blob:old".data), "obj".data)], revoked := [] }
        { name := "broken.obj".data, size := 10, mimeType := [] }).revoked ∧
    (loadModel ("blob:new".data)
        { modelUrl := some ("blob:old".data), fileName := some ("good.obj".data),
          fileType := some ("obj".data), error := none, isLoading := false,
          registry := [(fileTypeKey ("blob:old".data), "obj".data)], revoked := [] }
        { name := "broken.obj".data, size := 10, mimeType := [] }).modelUrl ≠
      some ("blob:old".data) := by
  exact ⟨by decide, by decide, by decide, by decide⟩

/-- C3 as amended.  A replacement load attempt that fails validation
(size or format) leaves the previously active model untouched; but a
parse failure can only happen to a file that passed validation, and for
such a file `loadModel` has already revoked the previous blob URL and
swapped the displayed URL before any parse is attempted, so a
parse-failing replacement load does destroy the previously displayed
model rather than leaving it untouched. -/
theorem c3_amended :
    (∀ st f fresh, sizeLimit < f.size ∨ resolveExt f.name f.mimeType = none →
      (loadModel fresh st f).modelUrl = st.modelUrl ∧
      (loadModel fresh st f).registry = st.registry ∧
      (loadModel fresh st f).revoked = st.revoked ∧
      (loadModel fresh st f).fileName = st.fileName ∧
      (loadModel fresh st f).fileType = st.fileType) ∧
    (∀ st f fresh old ext, resolveExt f.name f.mimeType = some ext →
      f.size ≤ sizeLimit → st.modelUrl = some old →
      startsWithStr ("blob:".data) old = true →
      (loadModel fresh st f).modelUrl = some fresh ∧
      old ∈ (loadModel fresh st f).revoked) := by
  constructor
  · intro st f fresh h
    unfold loadModel
    rcases h with h | h
    · rw [if_pos h]
      exact ⟨rfl, rfl, rfl, rfl, rfl⟩
    · by_cases hs : sizeLimit < f.size
      · rw [if_pos hs]
        exact ⟨rfl, rfl, rfl, rfl, rfl⟩
      · rw [if_neg hs, h]
        exact ⟨rfl, rfl, rfl, rfl, rfl⟩
  · intro st f fresh old ext hr hsz hold hblob
    unfold loadModel
    rw [if_neg (Nat.not_lt.mpr hsz), hr]
    simp [hold, hblob]

/-- Witness for C3: the amended theorem applied to the counterexample
state and file. -/
theorem c3_amended_witness :
    (loadModel ("blob:new".data)
        { modelUrl := some ("blob:old".data), fileName := some ("good.obj".data),
          fileType := some ("obj".data), error := none, isLoading := false,
          registry := [(fileTypeKey ("blob:old".data), "obj".data)], revoked := [] }
        { name := "broken.obj".data, size := 10, mimeType := [] }).modelUrl =
      some ("blob:new".data) ∧
    ("blob:old".data : Str) ∈ (loadModel ("blob:new".data)
        { modelUrl := some ("blob:old".data), fileName := some ("good.obj".data),
          fileType := some ("obj".data), error := none, isLoading := false,
          registry := [(fileTypeKey ("blob:old".data), "obj".data)], revoked := [] }
        { name := "broken.obj".data, size := 10, mimeType := [] }).revoked := by
  exact c3_amended.2 _ _ _ ("blob:old".data) ("obj".data)
    (by decide) (by decide) (by decide) (by decide)

theorem toDigitsCore_append (b : Nat) :
    ∀ (f n : Nat) (acc : List Char),
      Nat.toDigitsCore b f n acc = Nat.toDigitsCore b f n [] ++ acc := by
  intro f
  induction f with
  | zero => intro n acc; rfl
  | succ f ih =>
    intro n acc
    simp only [Nat.toDigitsCore]
    by_cases h : n / b = 0
    · simp [h]
    · rw [if_neg h, if_neg h, ih (n / b) (Nat.digitChar (n % b) :: acc),
        ih (n / b) [Nat.digitChar (n % b)]]
      simp

theorem digitVal_digitChar (m : Nat) (h : m < 10) :
    digitVal (Nat.digitChar m) = m := by
  interval_cases m <;> decide

theorem digitChar_ne_dash (m : Nat) (h : m < 10) : Nat.digitChar m ≠ '-' := by
  interval_cases m <;> decide

theorem decDigits_singleton (c : Char) : decDigits [c] = digitVal c := by
  show 10 * 0 + digitVal c = digitVal c
  omega

theorem decDigits_toDigitsCore :
    ∀ (f n : Nat), n < f → decDigits (Nat.toDigitsCore 10 f n []) = n := by
  intro f
  induction f with
  | zero => intro n h; omega
  | succ f ih =>
    intro n h
    simp only [Nat.toDigitsCore]
    by_cases hd : n / 10 = 0
    · rw [if_pos hd, decDigits_singleton, digitVal_digitChar (n % 10) (Nat.mod_lt n (by norm_num))]
      omega
    · rw [if_neg hd, toDigitsCore_append 10 f (n / 10) [Nat.digitChar (n % 10)]]
      unfold decDigits
      rw [List.foldl_append]
      have ihx := ih (n / 10) (by omega)
      unfold decDigits at ihx
      rw [ihx]
      show 10 * (n / 10) + digitVal (Nat.digitChar (n % 10)) = n
      rw [digitVal_digitChar (n % 10) (Nat.mod_lt n (by norm_num))]
      omega

theorem repr_data (n : Nat) :
    (Nat.repr n).data = Nat.toDigitsCore 10 (n + 1) n [] := rfl

theorem decDigits_repr (n : Nat) : decDigits (Nat.repr n).data = n := by
  rw [repr_data]
  exact decDigits_toDigitsCore (n + 1) n (Nat.lt_succ_self n)

theorem toDigitsCore_no_dash :
    ∀ (f n : Nat) (c : Char), c ∈ Nat.toDigitsCore 10 f n [] → c ≠ '-' := by
  intro f
  induction f with
  | zero => intro n c hc; simp [Nat.toDigitsCore] at hc
  | succ f ih =>
    intro n c hc
    simp only [Nat.toDigitsCore] at hc
    by_cases hd : n / 10 = 0
    · rw [if_pos hd, List.mem_singleton] at hc
      subst hc
      exact digitChar_ne_dash (n % 10) (Nat.mod_lt n (by norm_num))
    · rw [if_neg hd, toDigitsCore_append 10 f (n / 10) [Nat.digitChar (n % 10)]] at hc
      rcases List.mem_append.mp hc with hc | hc
      · exact ih (n / 10) c hc
      · rw [List.mem_singleton] at hc
        subst hc
        exact digitChar_ne_dash (n % 10) (Nat.mod_lt n (by norm_num))

theorem repr_no_dash (n : Nat) : '-' ∉ (Nat.repr n).data := by
  rw [repr_data]
  intro hm
  exact toDigitsCore_no_dash (n + 1) n '-' hm rfl

theorem decodeAnnotId_makeAnnotId (t r : Nat) :
    decodeAnnotId (makeAnnotId t r) = some (t, r) := by
  have hid : makeAnnotId t r =
      "annotation".data ++ '-' :: ((Nat.repr t).data ++ '-' :: (Nat.repr r).data) := by
    unfold makeAnnotId
    rw [show ("annotation-".data : Str) = "annotation".data ++ ['-'] from by decide]
    rw [show ("-".data : Str) = ['-'] from by decide]
    simp
  unfold decodeAnnotId
  rw [hid, splitOnChar_append_sep, splitOnChar_append_sep,
    splitOnChar_no_sep '-' ("annotation".data) (by decide),
    splitOnChar_no_sep '-' ((Nat.repr t).data) (repr_no_dash t),
    splitOnChar_no_sep '-' ((Nat.repr r).data) (repr_no_dash r)]
  show some (decDigits (Nat.repr t).data, decDigits (Nat.repr r).data) = some (t, r)
  rw [decDigits_repr, decDigits_repr]

theorem makeAnnotId_inj (t1 r1 t2 r2 : Nat)
    (h : makeAnnotId t1 r1 = makeAnnotId t2 r2) : t1 = t2 ∧ r1 = r2 := by
  have hd := congrArg decodeAnnotId h
  rw [decodeAnnotId_makeAnnotId, decodeAnnotId_makeAnnotId] at hd
  injection hd with hd
  exact ⟨congrArg Prod.fst hd, congrArg Prod.snd hd⟩

/-- C8 counterexample.  The id generator is only as unique as its
entropy: if the two `add` calls observe the same millisecond timestamp
and draw the same random disambiguator (probability 1/1000 within one
millisecond), the two annotations produced from identical input data
carry the same id, so ids are not unconditionally distinct. -/
theorem c8_counterexample :
    (addAnnot 5 7
      { position := (0, 0, 0), title := "t".data, description := "d".data, color := none }
      (addAnnot 5 7
        { position := (0, 0, 0), title := "t".data, description := "d".data, color := none }
        []).2).1.id =
    (addAnnot 5 7
      { position := (0, 0, 0), title := "t".data, description := "d".data, color := none }
      []).1.id ∧
    List.map (fun a : Annot => a.id)
      (addAnnot 5 7
        { position := (0, 0, 0), title := "t".data, description := "d".data, color := none }
        (addAnnot 5 7
          { position := (0, 0, 0), title := "t".data, description := "d".data, color := none }
          []).2).2 = [makeAnnotId 5 7, makeAnnotId 5 7] := by
  exact ⟨rfl, rfl⟩

/-- C8 as amended.  Two `add` calls produce annotations with distinct
ids whenever their `(Date.now(), random)` draws differ — the id encodes
the pair injectively; removing a just-added id (when no pre-existing
annotation happens to carry that id) yields exactly the original
collection, and `remove` is a filter, so the surviving annotations
always keep their original relative order. -/
theorem c8_amended :
    (∀ now1 r1 now2 r2 : Nat, ∀ d1 d2 : AnnotData, ∀ anns : List Annot,
      (now1, r1) ≠ (now2, r2) →
      (addAnnot now2 r2 d2 (addAnnot now1 r1 d1 anns).2).1.id ≠
        (addAnnot now1 r1 d1 anns).1.id) ∧
    (∀ now r d anns, (∀ a ∈ anns, a.id ≠ makeAnnotId now r) →
      removeAnnot (addAnnot now r d anns).1.id (addAnnot now r d anns).2 = anns) ∧
    (∀ id anns, List.Sublist (removeAnnot id anns) anns) := by
  refine ⟨?_, ?_, ?_⟩
  · intro now1 r1 now2 r2 d1 d2 anns hne hc
    have h := makeAnnotId_inj now2 r2 now1 r1 hc
    exact hne (by rw [h.1, h.2])
  · intro now r d anns h
    have h2 : List.filter (fun a => decide (¬ a.id = makeAnnotId now r)) anns = anns :=
      List.filter_eq_self.mpr (fun a ha => by simpa using h a ha)
    have h3 : List.filter (fun a => decide (¬ a.id = makeAnnotId now r))
        [(addAnnot now r d anns).1] = [] := by
      simp [addAnnot]
    have hgoal : removeAnnot (makeAnnotId now r)
        (anns ++ [(addAnnot now r d anns).1]) = anns := by
      unfold removeAnnot
      rw [List.filter_append, h2, h3, List.append_nil]
    exact hgoal
  · intro id anns
    exact List.filter_sublist anns

/-- Witness for C8: distinct draws at the same timestamp give distinct
ids, and removing the just-added id from a previously empty collection
empties it again. -/
theorem c8_amended_witness :
    (addAnnot 1 3
      { position := (0, 0, 0), title := "t".data, description := "d".data, color := none }
      (addAnnot 1 2
        { position := (0, 0, 0), title := "t".data, description := "d".data, color := none }
        []).2).1.id ≠
    (addAnnot 1 2
      { position := (0, 0, 0), title := "t".data, description := "d".data, color := none }
      []).1.id ∧
    removeAnnot (addAnnot 1 2
      { position := (0, 0, 0), title := "t".data, description := "d".data, color := none }
      []).1.id
      (addAnnot 1 2
        { position := (0, 0, 0), title := "t".data, description := "d".data, color := none }
        []).2 = [] := by
  exact ⟨c8_amended.1 1 2 1 3 _ _ [] (by decide),
    c8_amended.2.1 1 2 _ [] (by simp)⟩

/-- C2 counterexample.  The auto-fit code has no degenerate-case
fallback: a bounding box with a non-finite maximum dimension (for
example a malformed fragment with a vertex at infinity) propagates
straight through `Math.abs(maxDim / Math.sin(fov / 2)) * 1.5`, and with
the viewer's 50-degree field of view the camera distance comes out as
Infinity — neither finite nor any fixed default. -/
theorem c2_counterexample :
    cameraFitZ JSNum.inf (JSNum.num 0) (JSNum.num 0) (JSNum.num 50) = JSNum.inf ∧
    JSNum.isFinite
      (cameraFitZ JSNum.inf (JSNum.num 0) (JSNum.num 0) (JSNum.num 50)) = false := by
  have hs : 0 < Real.sin (50 * (Real.pi / 180) / 2) := by
    apply Real.sin_pos_of_pos_of_lt_pi
    · positivity
    · nlinarith [Real.pi_pos]
  have hmain : cameraFitZ JSNum.inf (JSNum.num 0) (JSNum.num 0) (JSNum.num 50) =
      JSNum.inf := by
    simp only [cameraFitZ]
    rw [show jsMax JSNum.inf (jsMax (JSNum.num 0) (JSNum.num 0)) = JSNum.inf from rfl]
    rw [show jsMul (JSNum.num 50) (JSNum.num (Real.pi / 180)) =
      JSNum.num (50 * (Real.pi / 180)) from rfl]
    have h1 : jsDiv (JSNum.num (50 * (Real.pi / 180))) (JSNum.num 2) =
        JSNum.num (50 * (Real.pi / 180) / 2) := by
      simp only [jsDiv]
      rw [if_neg (by norm_num : ¬ (2:ℝ) = 0)]
    rw [h1]
    rw [show jsSin (JSNum.num (50 * (Real.pi / 180) / 2)) =
      JSNum.num (Real.sin (50 * (Real.pi / 180) / 2)) from rfl]
    have h2 : jsDiv JSNum.inf (JSNum.num (Real.sin (50 * (Real.pi / 180) / 2))) =
        JSNum.inf := by
      simp only [jsDiv]
      rw [if_neg (not_lt.mpr (le_of_lt hs))]
    rw [h2]
    rw [show jsAbs JSNum.inf = JSNum.inf from rfl]
    simp only [jsMul]
    rw [if_pos (by norm_num : (0:ℝ) < 1.5)]
  exact ⟨hmain, by rw [hmain]; rfl⟩

/-- C2 as amended.  With finite bounding-box dimensions the computed
distance `|maxDim / sin(fov/2)| * 1.5` is a finite, non-negative number
whenever `sin(fov/2)` is non-zero; and the code contains no
degenerate-case fallback: a zero-size box yields camera distance `0`
rather than any fixed positive default (a non-finite `maxDim`
propagates, as the counterexample shows). -/
theorem c2_amended (a b c g : ℝ)
    (hs : Real.sin (g * (Real.pi / 180) / 2) ≠ 0) :
    (∃ r : ℝ, cameraFitZ (JSNum.num a) (JSNum.num b) (JSNum.num c) (JSNum.num g) =
        JSNum.num r ∧ 0 ≤ r) ∧
    cameraFitZ (JSNum.num 0) (JSNum.num 0) (JSNum.num 0) (JSNum.num g) =
      JSNum.num 0 := by
  have hfit : ∀ x y z : ℝ,
      cameraFitZ (JSNum.num x) (JSNum.num y) (JSNum.num z) (JSNum.num g) =
        JSNum.num (|max x (max y z) / Real.sin (g * (Real.pi / 180) / 2)| * 1.5) := by
    intro x y z
    simp only [cameraFitZ]
    rw [show jsMax (JSNum.num x) (jsMax (JSNum.num y) (JSNum.num z)) =
      JSNum.num (max x (max y z)) from rfl]
    rw [show jsMul (JSNum.num g) (JSNum.num (Real.pi / 180)) =
      JSNum.num (g * (Real.pi / 180)) from rfl]
    have h1 : jsDiv (JSNum.num (g * (Real.pi / 180))) (JSNum.num 2) =
        JSNum.num (g * (Real.pi / 180) / 2) := by
      simp only [jsDiv]
      rw [if_neg (by norm_num : ¬ (2:ℝ) = 0)]
    rw [h1]
    rw [show jsSin (JSNum.num (g * (Real.pi / 180) / 2)) =
      JSNum.num (Real.sin (g * (Real.pi / 180) / 2)) from rfl]
    have h2 : jsDiv (JSNum.num (max x (max y z)))
        (JSNum.num (Real.sin (g * (Real.pi / 180) / 2))) =
        JSNum.num (max x (max y z) / Real.sin (g * (Real.pi / 180) / 2)) := by
      simp only [jsDiv]
      rw [if_neg hs]
    rw [h2]
    rfl
  constructor
  · refine ⟨|max a (max b c) / Real.sin (g * (Real.pi / 180) / 2)| * 1.5, hfit a b c, ?_⟩
    positivity
  · rw [hfit 0 0 0]
    norm_num

/-- Witness for C2: a 1 by 2 by 3 box under the 90-degree camera yields
a finite non-negative distance, and the zero box yields distance 0. -/
theorem c2_amended_witness :
    (∃ r : ℝ, cameraFitZ (JSNum.num 1) (JSNum.num 2) (JSNum.num 3) (JSNum.num 90) =
        JSNum.num r ∧ 0 ≤ r) ∧
    cameraFitZ (JSNum.num 0) (JSNum.num 0) (JSNum.num 0) (JSNum.num 90) =
      JSNum.num 0 := by
  apply c2_amended
  rw [show (90:ℝ) * (Real.pi / 180) / 2 = Real.pi / 4 by ring, Real.sin_pi_div_four]
  exact ne_of_gt (by positivity)

/-- C10.  `screenToWorld` divides by the z-component of the normalized
camera-to-point direction with no guard: whenever that component is
exactly zero (and the camera position and depth are finite), the
division by zero contaminates the result and the returned vector's
z-coordinate is NaN — the function is total but returns a non-finite
coordinate. -/
theorem c10_div_guard (screenX screenY : JSNum) (camPos : JSVec3)
    (projInv world : JSMat4) (w h : JSNum) (dr pzr : ℝ)
    (hpz : camPos.z = JSNum.num pzr)
    (hdz : (stwDir screenX screenY camPos projInv world w h (JSNum.num dr)).z =
      JSNum.num 0) :
    (screenToWorldNum screenX screenY camPos projInv world w h
        (JSNum.num dr)).z = JSNum.nan ∧
    JSNum.isFinite ((screenToWorldNum screenX screenY camPos projInv world w h
        (JSNum.num dr)).z) = false := by
  have hz0mul : ∀ v : JSNum,
      v = JSNum.inf ∨ v = JSNum.ninf ∨ v = JSNum.nan →
      jsMul (JSNum.num 0) v = JSNum.nan := by
    rintro v (rfl | rfl | rfl) <;> simp [jsMul]
  have hdist : jsDiv (JSNum.num (dr + -pzr)) (JSNum.num 0) = JSNum.inf ∨
      jsDiv (JSNum.num (dr + -pzr)) (JSNum.num 0) = JSNum.ninf ∨
      jsDiv (JSNum.num (dr + -pzr)) (JSNum.num 0) = JSNum.nan := by
    simp only [jsDiv, if_pos rfl]
    by_cases h1 : 0 < dr + -pzr
    · exact Or.inl (by simp [h1])
    · by_cases h2 : dr + -pzr < 0
      · exact Or.inr (Or.inl (by simp [h1, h2]))
      · exact Or.inr (Or.inr (by simp [h1, h2]))
  have hmain : (screenToWorldNum screenX screenY camPos projInv world w h
      (JSNum.num dr)).z = JSNum.nan := by
    show (jsVecAdd camPos (jsVecScale _ _)).z = JSNum.nan
    simp only [jsVecAdd, jsVecScale]
    rw [hdz, hpz]
    rw [show jsSub (JSNum.num dr) (JSNum.num pzr) = JSNum.num (dr + -pzr) from rfl]
    rcases hdist with hd | hd | hd <;>
      rw [hd, hz0mul _ (by simp [hd])] <;> rfl
  exact ⟨hmain, by rw [hmain]; rfl⟩

/-- Witness for C10: with identity camera matrices, the camera at the
origin, and screen point `(800, 300)` on an 800 by 600 canvas at depth
0, the unprojected direction is `(1, 0, 0)` — its z-component is zero —
and `screenToWorld` returns a vector whose z-coordinate is NaN. -/
theorem c10_div_guard_witness :
    (screenToWorldNum (JSNum.num 800) (JSNum.num 300)
        { x := JSNum.num 0, y := JSNum.num 0, z := JSNum.num 0 }
        idJSMat4 idJSMat4 (JSNum.num 800) (JSNum.num 600)
        (JSNum.num 0)).z = JSNum.nan := by
  have hdz : (stwDir (JSNum.num 800) (JSNum.num 300)
      { x := JSNum.num 0, y := JSNum.num 0, z := JSNum.num 0 }
      idJSMat4 idJSMat4 (JSNum.num 800) (JSNum.num 600)
      (JSNum.num 0)).z = JSNum.num 0 := by
    norm_num [stwDir, stwNdc, idJSMat4, jsApplyMatrix4, jsNormalize, jsVecSub,
      jsVecScale, jsDiv, jsMul, jsAdd, jsSub, jsNeg, jsSqrt, Real.sqrt_one]
  exact (c10_div_guard (JSNum.num 800) (JSNum.num 300)
    { x := JSNum.num 0, y := JSNum.num 0, z := JSNum.num 0 }
    idJSMat4 idJSMat4 (JSNum.num 800) (JSNum.num 600) 0 0 rfl hdz).1

theorem applyMat4_projInv (c : PerspCamera) (v : Vec3) :
    applyMat4 (projectionMatInv c) v =
      { x := c.aspect * (2 * projTop c) / (2 * c.near) * v.x /
             (-(c.far - c.near) / (2 * c.far * c.near) * v.z +
              (c.far + c.near) / (2 * c.far * c.near))
        y := 2 * projTop c / (2 * c.near) * v.y /
             (-(c.far - c.near) / (2 * c.far * c.near) * v.z +
              (c.far + c.near) / (2 * c.far * c.near))
        z := -1 /
             (-(c.far - c.near) / (2 * c.far * c.near) * v.z +
              (c.far + c.near) / (2 * c.far * c.near)) } := by
  simp only [applyMat4, projectionMatInv]
  congr 1 <;> ring

theorem proj_roundtrip_x (c : PerspCamera) (vx vy vz t : ℝ)
    (hnear : c.near ≠ 0) (hasp : c.aspect ≠ 0) (htop : projTop c ≠ 0)
    (hfar : c.far ≠ 0)
    (hW : c.far + c.near - vz * (c.far - c.near) ≠ 0)
    (ht : t ≠ 0) :
    (applyMat4 (projectionMat c)
      (vscale t (applyMat4 (projectionMatInv c)
        { x := vx, y := vy, z := vz }))).x = vx := by
  have h2fn : (2:ℝ) * c.far * c.near ≠ 0 :=
    mul_ne_zero (mul_ne_zero two_ne_zero hfar) hnear
  have hWd : -(c.far - c.near) / (2 * c.far * c.near) * vz +
      (c.far + c.near) / (2 * c.far * c.near) ≠ 0 := by
    rw [show -(c.far - c.near) / (2 * c.far * c.near) * vz +
        (c.far + c.near) / (2 * c.far * c.near) =
        (c.far + c.near - vz * (c.far - c.near)) / (2 * c.far * c.near) from by ring]
    exact div_ne_zero hW h2fn
  simp only [applyMat4, projectionMat, projectionMatInv, vscale,
    zero_mul, one_mul, zero_add, add_zero, mul_zero, mul_one]
  generalize hgen : -(c.far - c.near) / (2 * c.far * c.near) * vz +
      (c.far + c.near) / (2 * c.far * c.near) = w0 at hWd ⊢
  field_simp
  ring

theorem proj_roundtrip_y (c : PerspCamera) (vx vy vz t : ℝ)
    (hnear : c.near ≠ 0) (hasp : c.aspect ≠ 0) (htop : projTop c ≠ 0)
    (hfar : c.far ≠ 0)
    (hW : c.far + c.near - vz * (c.far - c.near) ≠ 0)
    (ht : t ≠ 0) :
    (applyMat4 (projectionMat c)
      (vscale t (applyMat4 (projectionMatInv c)
        { x := vx, y := vy, z := vz }))).y = vy := by
  have h2fn : (2:ℝ) * c.far * c.near ≠ 0 :=
    mul_ne_zero (mul_ne_zero two_ne_zero hfar) hnear
  have hWd : -(c.far - c.near) / (2 * c.far * c.near) * vz +
      (c.far + c.near) / (2 * c.far * c.near) ≠ 0 := by
    rw [show -(c.far - c.near) / (2 * c.far * c.near) * vz +
        (c.far + c.near) / (2 * c.far * c.near) =
        (c.far + c.near - vz * (c.far - c.near)) / (2 * c.far * c.near) from by ring]
    exact div_ne_zero hW h2fn
  simp only [applyMat4, projectionMat, projectionMatInv, vscale,
    zero_mul, one_mul, zero_add, add_zero, mul_zero, mul_one]
  generalize hgen : -(c.far - c.near) / (2 * c.far * c.near) * vz +
      (c.far + c.near) / (2 * c.far * c.near) = w0 at hWd ⊢
  field_simp
  ring

theorem applyMat4_translation (p u : Vec3) :
    applyMat4 (translationMat p) u =
      { x := u.x + p.x, y := u.y + p.y, z := u.z + p.z } := by
  simp only [applyMat4, translationMat]
  congr 1 <;> ring

theorem vsub_translation_cancel (p u : Vec3) :
    vsub (applyMat4 (translationMat p) u) p = u := by
  rw [applyMat4_translation]
  show Vec3.mk (u.x + p.x - p.x) (u.y + p.y - p.y) (u.z + p.z - p.z) = u
  obtain ⟨ux, uy, uz⟩ := u
  congr 1 <;> ring

theorem translation_neg_vadd_cancel (p s : Vec3) :
    applyMat4 (translationMat { x := -p.x, y := -p.y, z := -p.z }) (vadd p s) = s := by
  rw [applyMat4_translation]
  show Vec3.mk (p.x + s.x + -p.x) (p.y + s.y + -p.y) (p.z + s.z + -p.z) = s
  obtain ⟨a, b, d⟩ := s
  congr 1 <;> ring

theorem vscale_normalize (u : Vec3) (dpz : ℝ) (huz : u.z ≠ 0) :
    vscale (dpz / (vnormalize u).z) (vnormalize u) = vscale (dpz / u.z) u := by
  obtain ⟨ux, uy, uz⟩ := u
  have hz : (uz : ℝ) ≠ 0 := huz
  have hsum : 0 < ux ^ 2 + uy ^ 2 + uz ^ 2 := by
    have h1 : 0 < uz ^ 2 := pow_two_pos_of_ne_zero hz
    have h2 : 0 ≤ ux ^ 2 := sq_nonneg ux
    have h3 : 0 ≤ uy ^ 2 := sq_nonneg uy
    linarith
  have hL : Real.sqrt (ux ^ 2 + uy ^ 2 + uz ^ 2) ≠ 0 :=
    ne_of_gt (Real.sqrt_pos.mpr hsum)
  simp only [vnormalize, vscale, vlength]
  congr 1 <;> field_simp <;> ring

/-- Certification that `projectionMatInv` is the matrix inverse that
Three.js maintains in `camera.projectionMatrixInverse`: the product with
`projectionMat` is the identity whenever the camera parameters are
non-degenerate. -/
theorem projectionMat_mul_inv (c : PerspCamera)
    (hnear : c.near ≠ 0) (hasp : c.aspect ≠ 0) (htop : projTop c ≠ 0)
    (hfar : c.far ≠ 0) (hfn : c.far - c.near ≠ 0) :
    mat4Mul (projectionMat c) (projectionMatInv c) = idMat4 := by
  simp only [mat4Mul, projectionMat, projectionMatInv, idMat4]
  congr 1 <;> field_simp <;> ring

/-- C7.  Round trip of the projection pair from `utils/annotations.ts`:
for every screen point and depth whose unprojected ray is non-degenerate
(the frustum side conditions below), `worldToScreen` applied to
`screenToWorld` returns exactly the rounded input pixel, hence the
original screen point within one pixel. -/
theorem c7_round_trip (c : PerspCamera) (sx sy w h depth : ℝ)
    (hw : w ≠ 0) (hh : h ≠ 0)
    (hnear : c.near ≠ 0) (hfar : c.far ≠ 0) (hasp : c.aspect ≠ 0)
    (htop : projTop c ≠ 0)
    (hfrustum : c.far + c.near - depth * (c.far - c.near) ≠ 0)
    (hdepth : depth ≠ c.position.z) :
    worldToScreen (screenToWorld sx sy c w h depth) c w h = (round sx, round sy) ∧
    |(round sx : ℝ) - sx| ≤ 1 ∧ |(round sy : ℝ) - sy| ≤ 1 := by
  have h2fn : (2:ℝ) * c.far * c.near ≠ 0 :=
    mul_ne_zero (mul_ne_zero two_ne_zero hfar) hnear
  have hWd : -(c.far - c.near) / (2 * c.far * c.near) * depth +
      (c.far + c.near) / (2 * c.far * c.near) ≠ 0 := by
    rw [show -(c.far - c.near) / (2 * c.far * c.near) * depth +
        (c.far + c.near) / (2 * c.far * c.near) =
        (c.far + c.near - depth * (c.far - c.near)) / (2 * c.far * c.near) from by ring]
    exact div_ne_zero hfrustum h2fn
  have huz : (applyMat4 (projectionMatInv c)
      { x := (sx / w) * 2 - 1, y := -(sy / h) * 2 + 1, z := depth }).z ≠ 0 := by
    rw [applyMat4_projInv]
    exact div_ne_zero (by norm_num) hWd
  have ht0 : (depth - c.position.z) /
      (applyMat4 (projectionMatInv c)
        { x := (sx / w) * 2 - 1, y := -(sy / h) * 2 + 1, z := depth }).z ≠ 0 :=
    div_ne_zero (sub_ne_zero.mpr hdepth) huz
  have hstw : screenToWorld sx sy c w h depth =
      vadd c.position (vscale ((depth - c.position.z) /
        (applyMat4 (projectionMatInv c)
          { x := (sx / w) * 2 - 1, y := -(sy / h) * 2 + 1, z := depth }).z)
        (applyMat4 (projectionMatInv c)
          { x := (sx / w) * 2 - 1, y := -(sy / h) * 2 + 1, z := depth })) := by
    simp only [screenToWorld, unprojectV]
    rw [vsub_translation_cancel, vscale_normalize _ _ huz]
  have hproj : worldToScreen (screenToWorld sx sy c w h depth) c w h =
      (round ((((sx / w) * 2 - 1) + 1) * w / 2),
       round ((-(-(sy / h) * 2 + 1) + 1) * h / 2)) := by
    rw [hstw]
    simp only [worldToScreen, projectV]
    rw [translation_neg_vadd_cancel]
    rw [proj_roundtrip_x c ((sx / w) * 2 - 1) (-(sy / h) * 2 + 1) depth _
          hnear hasp htop hfar hfrustum ht0,
        proj_roundtrip_y c ((sx / w) * 2 - 1) (-(sy / h) * 2 + 1) depth _
          hnear hasp htop hfar hfrustum ht0]
  have hxval : (((sx / w) * 2 - 1) + 1) * w / 2 = sx := by
    field_simp
  have hyval : (-(-(sy / h) * 2 + 1) + 1) * h / 2 = sy := by
    field_simp
  refine ⟨?_, ?_, ?_⟩
  · rw [hproj, hxval, hyval]
  · rw [abs_sub_comm]
    exact le_trans (abs_sub_round sx) (by norm_num)
  · rw [abs_sub_comm]
    exact le_trans (abs_sub_round sy) (by norm_num)

/-- Witness for C7: the camera at `(0, 0, 5)` with a 90-degree field of
view, screen point `(100, 50)` on an 800 by 600 viewport at depth 0,
round-trips to exactly `(100, 50)`. -/
theorem c7_round_trip_witness :
    worldToScreen (screenToWorld 100 50 witCamera 800 600 0) witCamera 800 600 =
      (100, 50) := by
  have htop1 : projTop witCamera = 1 := by
    simp only [projTop, witCamera, deg2rad]
    rw [show Real.pi / 180 * 0.5 * 90 = Real.pi / 4 by ring, Real.tan_pi_div_four]
    norm_num
  have h := c7_round_trip witCamera 100 50 800 600 0
    (by norm_num) (by norm_num)
    (by simp [witCamera]) (by simp [witCamera]) (by simp [witCamera])
    (by rw [htop1]; norm_num)
    (by simp [witCamera]; norm_num)
    (by simp [witCamera])
  rw [h.1]
  norm_num [round_eq]
